import Mathlib

/-!
Shallow embedding of the SMART-on-FHIR launch sequence of this repository
(`LaunchPage` and its helpers, `HomePage`'s `SmartLaunch`, and `config.ts`).

Conventions of the embedding:
* `sessionStorage` is a `Store := String → Option String`.
* `URLSearchParams` values are association lists `List (String × String)`;
  `get` returns the first binding.
* JavaScript string truthiness (`null` and `""` are falsy) is `truthy`.
* Randomness (`crypto.getRandomValues`, `crypto.randomUUID`) and network
  responses (`fetch` of the discovery document and of the token endpoint)
  are inputs, collected in a `LaunchEnv`.
* `crypto.subtle.digest('SHA-256', _)` is the `sha256` function below,
  implemented from the FIPS 180-4 algorithm over byte lists.
* Thrown `Error`s are `Except.error` carrying the message string; the
  `catch` in `LaunchPage`'s effect turns them into the `.failure` outcome.
-/

namespace SmartDemo

/-- JavaScript truthiness of a `string | null` value: `null` and `""` are falsy. -/
def truthy : Option String → Bool
  | none => false
  | some s => s != ""

/-- First binding for a key, like `URLSearchParams.get`. -/
def pget (params : List (String × String)) (k : String) : Option String :=
  List.lookup k params

/-- Does `l` start with `p`? (character-level) -/
def startsWithChars : List Char → List Char → Bool
  | _, [] => true
  | [], _ :: _ => false
  | a :: as, b :: bs => a == b && startsWithChars as bs

/-- Does `hay` contain `nee` as a contiguous substring? (character-level) -/
def hasSubChars : List Char → List Char → Bool
  | [], nee => nee.isEmpty
  | h :: t, nee => startsWithChars (h :: t) nee || hasSubChars t nee

/-- `String.prototype.includes`: substring containment test. -/
def strContains (s pat : String) : Bool :=
  hasSubChars s.data pat.data

/-- Characters after the first `://` of a URL string, if any. -/
def afterScheme : List Char → Option (List Char)
  | ':' :: '/' :: '/' :: rest => some rest
  | _ :: t => afterScheme t
  | [] => none

/-- `new URL(s).hostname` for an absolute URL: the authority up to the first
`/`, `:`, `?` or `#` after the scheme separator.  (`new URL` throws on a
string with no scheme; this model returns `""` there — no claim exercises
that case.) -/
def urlHostname (s : String) : String :=
  match afterScheme s.data with
  | none => ""
  | some rest =>
      String.mk (rest.takeWhile fun c => !(c == '/' || c == ':' || c == '?' || c == '#'))

/-! ### SHA-256 (FIPS 180-4), words as `Nat` mod `2^32` -/

/-- Truncate to a 32-bit word. -/
def w32 (n : Nat) : Nat := n % 4294967296

/-- Right rotation of a 32-bit word. -/
def rotr (n x : Nat) : Nat := (x >>> n) ||| ((x % (1 <<< n)) <<< (32 - n))

/-- SHA-256 choice function. -/
def chW (x y z : Nat) : Nat := (x &&& y) ^^^ ((x ^^^ 4294967295) &&& z)

/-- SHA-256 majority function. -/
def majW (x y z : Nat) : Nat := (x &&& y) ^^^ (x &&& z) ^^^ (y &&& z)

/-- SHA-256 Σ₀. -/
def bSig0 (x : Nat) : Nat := rotr 2 x ^^^ rotr 13 x ^^^ rotr 22 x

/-- SHA-256 Σ₁. -/
def bSig1 (x : Nat) : Nat := rotr 6 x ^^^ rotr 11 x ^^^ rotr 25 x

/-- SHA-256 σ₀. -/
def sSig0 (x : Nat) : Nat := rotr 7 x ^^^ rotr 18 x ^^^ (x >>> 3)

/-- SHA-256 σ₁. -/
def sSig1 (x : Nat) : Nat := rotr 17 x ^^^ rotr 19 x ^^^ (x >>> 10)

/-- SHA-256 round constants (FIPS 180-4 §4.2.2, written in decimal). -/
def sha256K : List Nat :=
  [1116352408, 1899447441, 3049323471, 3921009573, 961987163, 1508970993,
   2453635748, 2870763221, 3624381080, 310598401, 607225278, 1426881987,
   1925078388, 2162078206, 2614888103, 3248222580, 3835390401, 4022224774,
   264347078, 604807628, 770255983, 1249150122, 1555081692, 1996064986,
   2554220882, 2821834349, 2952996808, 3210313671, 3336571891, 3584528711,
   113926993, 338241895, 666307205, 773529912, 1294757372, 1396182291,
   1695183700, 1986661051, 2177026350, 2456956037, 2730485921, 2820302411,
   3259730800, 3345764771, 3516065817, 3600352804, 4094571909, 275423344,
   430227734, 506948616, 659060556, 883997877, 958139571, 1322822218,
   1537002063, 1747873779, 1955562222, 2024104815, 2227730452, 2361852424,
   2428436474, 2756734187, 3204031479, 3329325298]

/-- SHA-256 initial hash value (FIPS 180-4 §5.3.3, written in decimal). -/
def sha256H0 : List Nat :=
  [1779033703, 3144134277, 1013904242, 2773480762,
   1359893119, 2600822924, 528734635, 1541459225]

/-- Big-endian 64-bit length field of the padding. -/
def len64 (n : Nat) : List Nat :=
  [(n >>> 56) % 256, (n >>> 48) % 256, (n >>> 40) % 256, (n >>> 32) % 256,
   (n >>> 24) % 256, (n >>> 16) % 256, (n >>> 8) % 256, n % 256]

/-- SHA-256 message padding to a multiple of 64 bytes. -/
def padBytes (msg : List Nat) : List Nat :=
  let len := msg.length
  let padZeros := (64 + 56 - (len + 1) % 64) % 64
  msg ++ [128] ++ List.replicate padZeros 0 ++ len64 (8 * len)

/-- Pack bytes into big-endian 32-bit words (dropping a trailing partial group;
padded input is always a multiple of 4). -/
def toWords : List Nat → List Nat
  | b0 :: b1 :: b2 :: b3 :: rest =>
      ((b0 <<< 24) ||| (b1 <<< 16) ||| (b2 <<< 8) ||| b3) :: toWords rest
  | _ => []

/-- Append the next word of the message schedule. -/
def scheduleStep (w : List Nat) : List Nat :=
  let i := w.length
  w ++ [w32 (w.getD (i - 16) 0 + sSig0 (w.getD (i - 15) 0) + w.getD (i - 7) 0 + sSig1 (w.getD (i - 2) 0))]

/-- Extend the 16-word schedule by `k` further words. -/
def extendSchedule (w : List Nat) : Nat → List Nat
  | 0 => w
  | k + 1 => extendSchedule (scheduleStep w) k

/-- The eight 32-bit working variables of the compression loop. -/
structure Hv where
  a : Nat
  b : Nat
  c : Nat
  d : Nat
  e : Nat
  f : Nat
  g : Nat
  h : Nat

/-- One round of the SHA-256 compression loop; `kw` is the pair `(Kₜ, Wₜ)`. -/
def compressStep (s : Hv) (kw : Nat × Nat) : Hv :=
  let t1 := w32 (s.h + bSig1 s.e + chW s.e s.f s.g + kw.1 + kw.2)
  let t2 := w32 (bSig0 s.a + majW s.a s.b s.c)
  ⟨w32 (t1 + t2), s.a, s.b, s.c, w32 (s.d + t1), s.e, s.f, s.g⟩

/-- Process one 64-byte block: schedule, 64 rounds, add to the hash value. -/
def compressBlock (hv : List Nat) (block : List Nat) : List Nat :=
  let w := extendSchedule (toWords block) 48
  let fin := (List.zip sha256K w).foldl compressStep
    ⟨hv.getD 0 0, hv.getD 1 0, hv.getD 2 0, hv.getD 3 0,
     hv.getD 4 0, hv.getD 5 0, hv.getD 6 0, hv.getD 7 0⟩
  [w32 (hv.getD 0 0 + fin.a), w32 (hv.getD 1 0 + fin.b), w32 (hv.getD 2 0 + fin.c),
   w32 (hv.getD 3 0 + fin.d), w32 (hv.getD 4 0 + fin.e), w32 (hv.getD 5 0 + fin.f),
   w32 (hv.getD 6 0 + fin.g), w32 (hv.getD 7 0 + fin.h)]

/-- Fold the compression function over `k` consecutive 64-byte blocks
(structural recursion on the block count, so the kernel can evaluate it). -/
def processCount : Nat → List Nat → List Nat → List Nat
  | 0, hv, _ => hv
  | k + 1, hv, bytes => processCount k (compressBlock hv (bytes.take 64)) (bytes.drop 64)

/-- Fold the compression function over all 64-byte blocks of a padded message. -/
def processBlocks (hv bytes : List Nat) : List Nat :=
  processCount (bytes.length / 64) hv bytes

/-- Big-endian bytes of a 32-bit word. -/
def wordToBytes (wd : Nat) : List Nat :=
  [(wd >>> 24) % 256, (wd >>> 16) % 256, (wd >>> 8) % 256, wd % 256]

/-- Concatenate the big-endian bytes of a word list. -/
def wordsToBytes (ws : List Nat) : List Nat :=
  ws.foldr (fun wd acc => wordToBytes wd ++ acc) []

/-- SHA-256 of a byte list (the model of `crypto.subtle.digest('SHA-256', _)`). -/
def sha256 (msg : List Nat) : List Nat :=
  wordsToBytes (processBlocks sha256H0 (padBytes msg))

/-! ### base64url and the PKCE helpers (`generateCodeVerifier`,
`base64UrlEncode`, `generateCodeChallenge` of the launch page) -/

/-- The base64 alphabet used by `btoa`. -/
def b64Chars : List Char :=
  "ABCDEFGHIJKLMNOPQRSTUVWXYZabcdefghijklmnopqrstuvwxyz0123456789+/".data

/-- Alphabet character at an index. -/
def b64Char (n : Nat) : Char := b64Chars.getD n '?'

/-- `btoa` on a byte list: standard base64 with `=` padding, 3 bytes → 4 chars. -/
def b64Groups : List Nat → List Char
  | [] => []
  | [a] => [b64Char (a >>> 2), b64Char ((a % 4) <<< 4), '=', '=']
  | [a, b] => [b64Char (a >>> 2), b64Char (((a % 4) <<< 4) ||| (b >>> 4)),
               b64Char ((b % 16) <<< 2), '=']
  | a :: b :: c :: rest =>
      b64Char (a >>> 2) :: b64Char (((a % 4) <<< 4) ||| (b >>> 4)) ::
      b64Char (((b % 16) <<< 2) ||| (c >>> 6)) :: b64Char (c % 64) :: b64Groups rest

/-- The `+`→`-`, `/`→`_` replacements of `base64UrlEncode`. -/
def urlSafeChar (c : Char) : Char :=
  if c = '+' then '-' else if c = '/' then '_' else c

/-- `base64UrlEncode(buffer)`: `btoa` output with `+`→`-`, `/`→`_` and `=` removed. -/
def base64UrlEncode (buffer : List Nat) : String :=
  String.mk (((b64Groups buffer).map urlSafeChar).filter fun c => c ≠ '=')

/-- `generateCodeVerifier()`: base64url of 32 random bytes; the random bytes
from `crypto.getRandomValues(new Uint8Array(32))` are a parameter. -/
def generateCodeVerifier (randomBytes : List Nat) : String :=
  base64UrlEncode randomBytes

/-- UTF-8 bytes of a code point (the model of `TextEncoder.encode`). -/
def utf8Bytes (n : Nat) : List Nat :=
  if n < 128 then [n]
  else if n < 2048 then [192 + n / 64, 128 + n % 64]
  else if n < 65536 then [224 + n / 4096, 128 + (n / 64) % 64, 128 + n % 64]
  else [240 + n / 262144, 128 + (n / 4096) % 64, 128 + (n / 64) % 64, 128 + n % 64]

/-- UTF-8 byte sequence of a string. -/
def strBytes (s : String) : List Nat :=
  s.data.foldr (fun c acc => utf8Bytes c.toNat ++ acc) []

/-- `generateCodeChallenge(verifier)`: base64url of SHA-256 of the UTF-8 verifier. -/
def generateCodeChallenge (verifier : String) : String :=
  base64UrlEncode (sha256 (strBytes verifier))

/-! ### `config.ts` constants -/

/-- `MEDPLUM_CLIENT_ID` of `config.ts`. -/
def MEDPLUM_CLIENT_ID : String := "d68a6a98-d5ea-4e1b-9dff-ae215249179f"

/-- `SMART_HEALTH_IT_CLIENT_ID` of `config.ts`. -/
def SMART_HEALTH_IT_CLIENT_ID : String := "your-client-id"

/-- `FHIR_SCOPE` of `config.ts`. -/
def FHIR_SCOPE : String := "launch/patient patient/*.read"

/-! ### `sessionStorage` (the Launch State Store) -/

/-- `sessionStorage` as a finite map from keys to stored strings. -/
def Store : Type := String → Option String

/-- `sessionStorage.getItem`. -/
def getItem (s : Store) (k : String) : Option String := s k

/-- `sessionStorage.setItem`. -/
def setItem (s : Store) (k v : String) : Store :=
  fun k2 => if k2 = k then some v else s k2

/-- `sessionStorage.removeItem`. -/
def removeItem (s : Store) (k : String) : Store :=
  fun k2 => if k2 = k then none else s k2

/-- An empty `sessionStorage`. -/
def emptyStore : Store := fun _ => none

/-! ### Model types for the launch sequencer -/

/-- The discovery document interface of the launch page: both endpoints are
optional because `response.json()` is returned without field validation. -/
structure SmartConfiguration where
  authorization_endpoint : Option String
  token_endpoint : Option String
deriving DecidableEq

/-- The token endpoint's JSON response body. -/
structure TokenResponse where
  access_token : String
  patient : String
deriving DecidableEq

/-- What the network returns for the discovery GET. -/
inductive DiscoveryResult where
  | notOk (status : Nat) (statusText : String)
  | ok (cfg : SmartConfiguration)
deriving DecidableEq

/-- What the network returns for the token POST. -/
inductive TokenResult where
  | notOk (status : Nat) (body : String)
  | ok (t : TokenResponse)
deriving DecidableEq

/-- The ambient inputs of one run of the launch page: random values from the
browser crypto API, the window origin, and the responses the two network
calls would receive. -/
structure LaunchEnv where
  verifierBytes : List Nat
  uuid : String
  origin : String
  discovery : DiscoveryResult
  tokenResult : TokenResult

/-- A recorded POST to the token endpoint. -/
structure TokenPost where
  endpoint : String
  body : List (String × String)
deriving DecidableEq

/-- How a run of the launch page ends: a router navigation, a full-page
redirect to the authorization endpoint (with its query as key/value pairs),
or the error rendering set up by the `catch`. -/
inductive Outcome where
  | navigate (path : String)
  | redirect (authEndpoint : String) (query : List (String × String))
  | failure (msg : String)
deriving DecidableEq

/-- Effects accumulated while a run executes: the storage contents, the
discovery URLs fetched, and the token POSTs issued. -/
structure Eff where
  store : Store
  fetches : List String
  posts : List TokenPost

/-- The full observable result of one run of the launch page. -/
structure RunResult where
  outcome : Outcome
  store : Store
  fetches : List String
  posts : List TokenPost

/-- Wrap a caught error message as a run result (the `catch`/`setError` path). -/
def mkFailure (e : Eff) (msg : String) : RunResult :=
  ⟨.failure msg, e.store, e.fetches, e.posts⟩

/-! ### The launch sequencer functions of `LaunchPage` -/

/-- `getClientId(params, iss)`: an explicit truthy `client_id` request
parameter wins; otherwise the issuer's hostname is matched against the
allow-list `['smarthealthit.org']`; otherwise the Medplum client id. -/
def getClientId (params : List (String × String)) (iss : String) : String :=
  let clientId := pget params "client_id"
  if truthy clientId then clientId.getD ""
  else if ["smarthealthit.org"].contains (urlHostname iss) then SMART_HEALTH_IT_CLIENT_ID
  else MEDPLUM_CLIENT_ID

/-- `fetchSmartConfiguration(iss)`: issuers whose URL contains the substring
`medplum.com` get the hardcoded endpoints with no fetch; all others GET
`<iss>/.well-known/smart-configuration`.  Returns the thrown/returned value
and the list of discovery URLs actually fetched. -/
def fetchSmartConfiguration (iss : String) (env : LaunchEnv) :
    Except String SmartConfiguration × List String :=
  if strContains iss "medplum.com" then
    (.ok ⟨some "https://api.medplum.com/oauth2/authorize",
          some "https://api.medplum.com/oauth2/token"⟩, [])
  else
    let configUrl := iss ++ "/.well-known/smart-configuration"
    match env.discovery with
    | .notOk status statusText =>
        (.error ("Failed to fetch SMART configuration from " ++ configUrl ++ ": "
          ++ toString status ++ " " ++ statusText), [configUrl])
    | .ok cfg => (.ok cfg, [configUrl])

/-- `initiateEhrLaunch(params)`: store the issuer, resolve configuration,
generate and store state and PKCE verifier, and build the authorization
redirect.  `launch` is stringified like `launch as string` (null → "null");
a missing `authorization_endpoint` makes `new URL(undefined)` throw. -/
def initiateEhrLaunch (params : List (String × String)) (env : LaunchEnv) (e : Eff) :
    Eff × Except String Outcome :=
  let iss := pget params "iss"
  let launch := pget params "launch"
  if !truthy iss then (e, .error "Missing iss parameter for EHR launch")
  else
    let issS := iss.getD ""
    let e1 : Eff := { e with store := setItem e.store "smart_iss" issS }
    let fetched := fetchSmartConfiguration issS env
    let e2 : Eff := { e1 with fetches := e1.fetches ++ fetched.2 }
    match fetched.1 with
    | .error m => (e2, .error m)
    | .ok config =>
        let state := env.uuid
        let e3 : Eff := { e2 with store := setItem e2.store "smart_state" state }
        let codeVerifier := generateCodeVerifier env.verifierBytes
        let codeChallenge := generateCodeChallenge codeVerifier
        let e4 : Eff := { e3 with store := setItem e3.store "smart_code_verifier" codeVerifier }
        let clientId := getClientId params issS
        let authParams := [("response_type", "code"), ("client_id", clientId),
          ("scope", FHIR_SCOPE), ("redirect_uri", env.origin ++ "/launch"),
          ("state", state), ("aud", issS), ("launch", launch.getD "null"),
          ("code_challenge", codeChallenge), ("code_challenge_method", "S256")]
        match config.authorization_endpoint with
        | none => (e4, .error "Failed to construct URL: Invalid URL")
        | some ep => (e4, .ok (.redirect ep authParams))

/-- `validateAuthResponse(params)`: collect missing `code`/`state`, then
compare `state` with the stored `smart_state`. -/
def validateAuthResponse (params : List (String × String)) (store : Store) :
    Except String Unit :=
  let code := pget params "code"
  let state := pget params "state"
  let storedState := getItem store "smart_state"
  let missing := (if !truthy code then ["code"] else [])
    ++ (if !truthy state then ["state"] else [])
  if missing.length > 0 then
    .error ("Missing required parameters in authorization response: "
      ++ String.intercalate ", " missing)
  else if state ≠ storedState then
    .error "State parameter mismatch - possible session expired. Please try launching the app again."
  else
    .ok ()

/-- `exchangeCodeForToken(params, config, clientId)`: abort if the stored
verifier is missing, else POST the form body to the token endpoint and parse
the response.  The POST is recorded before the response is examined. -/
def exchangeCodeForToken (params : List (String × String)) (config : SmartConfiguration)
    (clientId : String) (env : LaunchEnv) (e : Eff) : Eff × Except String TokenResponse :=
  let code := pget params "code"
  let codeVerifier := getItem e.store "smart_code_verifier"
  if !truthy codeVerifier then
    (e, .error "Missing code verifier - session may have expired")
  else
    let tokenBody := [("grant_type", "authorization_code"), ("code", code.getD "null"),
      ("redirect_uri", env.origin ++ "/launch"), ("client_id", clientId),
      ("code_verifier", codeVerifier.getD "")]
    let endpoint := (config.token_endpoint).getD "undefined"
    let e1 : Eff := { e with posts := e.posts ++ [⟨endpoint, tokenBody⟩] }
    match env.tokenResult with
    | .notOk status body =>
        (e1, .error ("Failed to get access token: " ++ toString status ++ " " ++ body))
    | .ok t => (e1, .ok t)

/-- `setupMedplumClient`: persist the token data into the store (the Medplum
client construction has no observable effect in this model). -/
def setupMedplumClient (tokenData : TokenResponse) (iss : String) (s : Store) : Store :=
  setItem (setItem (setItem s "smart_patient" tokenData.patient)
    "smart_access_token" tokenData.access_token) "smart_base_url" iss

/-- `handleSmartLaunch` of `LaunchPage`'s effect: the whole per-page-load
run, with the `catch` folded in as the `.failure` outcome. -/
def handleSmartLaunch (params : List (String × String)) (store : Store)
    (env : LaunchEnv) : RunResult :=
  let e0 : Eff := ⟨store, [], []⟩
  let errParam := pget params "error"
  if truthy errParam then
    mkFailure e0 ("OAuth error: " ++ errParam.getD ""
      ++ (if truthy (pget params "error_description") then
            " - " ++ (pget params "error_description").getD "" else ""))
  else
    let launch := pget params "launch"
    let code := pget params "code"
    if !truthy launch && !truthy code then
      ⟨.navigate "/", store, [], []⟩
    else if truthy (getItem store "smart_access_token")
        && truthy (getItem store "smart_patient")
        && !truthy launch && !truthy code then
      ⟨.navigate "/patient", store, [], []⟩
    else if truthy launch then
      match initiateEhrLaunch params env e0 with
      | (e, .error m) => mkFailure e m
      | (e, .ok o) => ⟨o, e.store, e.fetches, e.posts⟩
    else
      match validateAuthResponse params store with
      | .error m => mkFailure e0 m
      | .ok _ =>
        let iss := getItem store "smart_iss"
        if !truthy iss then mkFailure e0 "No issuer found in session storage"
        else
          let issS := iss.getD ""
          let fetched := fetchSmartConfiguration issS env
          let e1 : Eff := { e0 with fetches := e0.fetches ++ fetched.2 }
          match fetched.1 with
          | .error m => mkFailure e1 m
          | .ok config =>
            let clientId := getClientId params issS
            match exchangeCodeForToken params config clientId env e1 with
            | (e2, .error m) => mkFailure e2 m
            | (e2, .ok tokenData) =>
              let s1 := removeItem e2.store "smart_state"
              let s2 := removeItem s1 "smart_iss"
              let s3 := removeItem s2 "smart_code_verifier"
              ⟨.navigate "/patient", setupMedplumClient tokenData issS s3, e2.fetches, e2.posts⟩

/-- One invocation of `LaunchPage`'s `useEffect` body: return immediately if
the `hasInitialized` ref is already set, else set it (synchronously, before
any awaited work) and run `handleSmartLaunch`. -/
def effectInvoke (flag : Bool) (params : List (String × String)) (store : Store)
    (env : LaunchEnv) : Bool × Option RunResult :=
  if flag then (flag, none) else (true, some (handleSmartLaunch params store env))

/-- Two invocations of the effect in rapid succession on the same navigation,
starting from a fresh (unset) ref. -/
def doubleInvoke (params : List (String × String)) (store : Store) (env : LaunchEnv) :
    Option RunResult × Option RunResult :=
  let r1 := effectInvoke false params store env
  let r2 := effectInvoke r1.1 params store env
  (r1.2, r2.2)

/-- Token-POST count of an optional run. -/
def postsOf : Option RunResult → Nat
  | none => 0
  | some r => r.posts.length

/-- `SmartLaunch`'s `handleClick` on the home page: build the authorization
query (`crypto.randomUUID()` is the `uuid` argument) and redirect to
`iss?{query}`.  It never touches `sessionStorage`, so the store is returned
unchanged. -/
def smartLaunchClick (clientId iss uuid origin : String) (store : Store) :
    Outcome × Store :=
  (.redirect iss [("response_type", "code"), ("client_id", clientId),
    ("scope", FHIR_SCOPE), ("redirect_uri", origin ++ "/launch"),
    ("state", uuid), ("aud", iss)], store)

/-- Query pairs of a redirect outcome. -/
def outcomeQuery : Outcome → List (String × String)
  | .redirect _ q => q
  | _ => []

/-! ### Supporting lemmas: digest shape -/

/-- A compressed block is always eight words. -/
theorem compressBlock_length (hv block : List Nat) : (compressBlock hv block).length = 8 := rfl

/-- Processing blocks preserves the eight-word hash state. -/
theorem processCount_length :
    ∀ (k : Nat) (hv bytes : List Nat), hv.length = 8 → (processCount k hv bytes).length = 8
  | 0, _, _, h => h
  | k + 1, hv, bytes, _ =>
      processCount_length k _ (bytes.drop 64) (compressBlock_length hv (bytes.take 64))

/-- `wordsToBytes` on a cons. -/
theorem wordsToBytes_cons (wd : Nat) (t : List Nat) :
    wordsToBytes (wd :: t) = wordToBytes wd ++ wordsToBytes t := rfl

/-- Four serialized bytes per word. -/
theorem wordsToBytes_length (ws : List Nat) : (wordsToBytes ws).length = 4 * ws.length := by
  induction ws with
  | nil => rfl
  | cons wd t ih =>
      rw [wordsToBytes_cons, List.length_append, ih]
      simp [wordToBytes]
      omega

/-- Serialized words are genuine bytes. -/
theorem wordsToBytes_lt (ws : List Nat) : ∀ x ∈ wordsToBytes ws, x < 256 := by
  induction ws with
  | nil => intro x hx; simp [wordsToBytes] at hx
  | cons wd t ih =>
      intro x hx
      rw [wordsToBytes_cons, List.mem_append] at hx
      rcases hx with hx | hx
      · simp [wordToBytes] at hx
        rcases hx with h | h | h | h <;> omega
      · exact ih x hx

/-- A SHA-256 digest is 32 bytes. -/
theorem sha256_length (m : List Nat) : (sha256 m).length = 32 := by
  rw [sha256, wordsToBytes_length, processBlocks,
    processCount_length ((padBytes m).length / 64) sha256H0 (padBytes m) rfl]

/-- Every digest byte is below 256. -/
theorem sha256_lt (m : List Nat) : ∀ x ∈ sha256 m, x < 256 :=
  wordsToBytes_lt _

/-! ### Supporting lemmas: base64url output shape -/

/-- `x ||| y` stays below 64 when both arguments do. -/
theorem or_lt_64 {x y : Nat} (hx : x < 64) (hy : y < 64) : x ||| y < 64 := by
  have h : (64 : Nat) = 2 ^ 6 := by norm_num
  rw [h] at hx hy ⊢
  exact Nat.or_lt_two_pow hx hy

/-- First base64 index of a group. -/
theorem idxA_lt (a : Nat) (ha : a < 256) : a >>> 2 < 64 := by omega

/-- Second base64 index of a group. -/
theorem idxB_lt (a b : Nat) (hb : b < 256) : ((a % 4) <<< 4) ||| (b >>> 4) < 64 :=
  or_lt_64 (by omega) (by omega)

/-- Second base64 index of a final 1-byte group. -/
theorem idxB1_lt (a : Nat) : (a % 4) <<< 4 < 64 := by omega

/-- Third base64 index of a group. -/
theorem idxC_lt (b c : Nat) (hc : c < 256) : ((b % 16) <<< 2) ||| (c >>> 6) < 64 :=
  or_lt_64 (by omega) (by omega)

/-- Third base64 index of a final 2-byte group. -/
theorem idxC1_lt (b : Nat) : (b % 16) <<< 2 < 64 := by omega

/-- Alphabet characters below index 64 stay clear of `+`, `/` and `=` after
the URL-safe substitution. -/
theorem urlSafe_good (i : Nat) (hi : i < 64) :
    urlSafeChar (b64Char i) ≠ '+' ∧ urlSafeChar (b64Char i) ≠ '/' ∧ urlSafeChar (b64Char i) ≠ '=' := by
  have h : ∀ j : Fin 64, urlSafeChar (b64Char j.val) ≠ '+'
      ∧ urlSafeChar (b64Char j.val) ≠ '/' ∧ urlSafeChar (b64Char j.val) ≠ '=' := by decide
  exact h ⟨i, hi⟩

/-- Every character `btoa` emits on byte input is `=` or an alphabet
character of index below 64. -/
theorem b64Groups_good (l : List Nat) (hl : ∀ b ∈ l, b < 256) :
    ∀ x ∈ b64Groups l, x = '=' ∨ ∃ i, i < 64 ∧ x = b64Char i := by
  induction l using b64Groups.induct with
  | case1 => intro x hx; simp [b64Groups] at hx
  | case2 a =>
      intro x hx
      have ha : a < 256 := hl a (by simp)
      simp [b64Groups] at hx
      rcases hx with h | h | h
      · exact Or.inr ⟨a >>> 2, idxA_lt a ha, h⟩
      · exact Or.inr ⟨(a % 4) <<< 4, idxB1_lt a, h⟩
      · exact Or.inl h
  | case3 a b =>
      intro x hx
      have ha : a < 256 := hl a (by simp)
      have hb : b < 256 := hl b (by simp)
      simp [b64Groups] at hx
      rcases hx with h | h | h | h
      · exact Or.inr ⟨a >>> 2, idxA_lt a ha, h⟩
      · exact Or.inr ⟨((a % 4) <<< 4) ||| (b >>> 4), idxB_lt a b hb, h⟩
      · exact Or.inr ⟨(b % 16) <<< 2, idxC1_lt b, h⟩
      · exact Or.inl h
  | case4 a b c rest ih =>
      intro x hx
      have ha : a < 256 := hl a (by simp)
      have hb : b < 256 := hl b (by simp)
      have hc : c < 256 := hl c (by simp)
      have hrest : ∀ y ∈ rest, y < 256 := fun y hy => hl y (by simp [hy])
      simp only [b64Groups, List.mem_cons] at hx
      rcases hx with h | h | h | h | h
      · exact Or.inr ⟨a >>> 2, idxA_lt a ha, h⟩
      · exact Or.inr ⟨((a % 4) <<< 4) ||| (b >>> 4), idxB_lt a b hb, h⟩
      · exact Or.inr ⟨((b % 16) <<< 2) ||| (c >>> 6), idxC_lt b c hc, h⟩
      · exact Or.inr ⟨c % 64, by omega, h⟩
      · exact ih hrest x h

/-- The URL-safe substitution keeps the padding character unchanged. -/
theorem urlSafeChar_pad : urlSafeChar '=' = '=' := rfl

/-- Length of the url-safe, `=`-stripped encoding: `⌈4n/3⌉` characters for
`n` input bytes. -/
theorem encFiltered_length (l : List Nat) (hl : ∀ b ∈ l, b < 256) :
    (((b64Groups l).map urlSafeChar).filter (fun c => c ≠ '=')).length
      = (4 * l.length + 2) / 3 := by
  induction l using b64Groups.induct with
  | case1 => rfl
  | case2 a =>
      have ha : a < 256 := hl a (by simp)
      have g1 := (urlSafe_good _ (idxA_lt a ha)).2.2
      have g2 := (urlSafe_good _ (idxB1_lt a)).2.2
      simp [b64Groups, urlSafeChar_pad, g1, g2]
  | case3 a b =>
      have ha : a < 256 := hl a (by simp)
      have hb : b < 256 := hl b (by simp)
      have g1 := (urlSafe_good _ (idxA_lt a ha)).2.2
      have g2 := (urlSafe_good _ (idxB_lt a b hb)).2.2
      have g3 := (urlSafe_good _ (idxC1_lt b)).2.2
      simp [b64Groups, urlSafeChar_pad, g1, g2, g3]
  | case4 a b c rest ih =>
      have ha : a < 256 := hl a (by simp)
      have hb : b < 256 := hl b (by simp)
      have hc : c < 256 := hl c (by simp)
      have hrest : ∀ y ∈ rest, y < 256 := fun y hy => hl y (by simp [hy])
      have g1 := (urlSafe_good _ (idxA_lt a ha)).2.2
      have g2 := (urlSafe_good _ (idxB_lt a b hb)).2.2
      have g3 := (urlSafe_good _ (idxC_lt b c hc)).2.2
      have g4 := (urlSafe_good (c % 64) (by omega)).2.2
      have ih2 := ih hrest
      simp [b64Groups, g1, g2, g3, g4] at ih2 ⊢
      omega

/-- Length of `base64UrlEncode` on byte input. -/
theorem base64UrlEncode_length (l : List Nat) (hl : ∀ b ∈ l, b < 256) :
    (base64UrlEncode l).length = (4 * l.length + 2) / 3 := by
  simpa [base64UrlEncode, String.length] using encFiltered_length l hl

/-- No `+`, `/` or `=` ever appears in `base64UrlEncode` of byte input. -/
theorem base64UrlEncode_charset (l : List Nat) (hl : ∀ b ∈ l, b < 256) :
    ∀ c ∈ (base64UrlEncode l).data, c ≠ '+' ∧ c ≠ '/' ∧ c ≠ '=' := by
  intro c hc
  simp only [base64UrlEncode] at hc
  rcases List.mem_filter.mp hc with ⟨hmem, hne⟩
  rcases List.mem_map.mp hmem with ⟨x, hx, rfl⟩
  rcases b64Groups_good l hl x hx with h1 | ⟨i, hi, rfl⟩
  · subst h1
    simp [urlSafeChar] at hne
  · exact urlSafe_good i hi

/-- A PKCE challenge is always 43 characters. -/
theorem generateCodeChallenge_length (v : String) : (generateCodeChallenge v).length = 43 := by
  rw [generateCodeChallenge, base64UrlEncode_length _ (sha256_lt _), sha256_length]

/-- A PKCE challenge never contains `+`, `/` or `=`. -/
theorem generateCodeChallenge_charset (v : String) :
    ∀ c ∈ (generateCodeChallenge v).data, c ≠ '+' ∧ c ≠ '/' ∧ c ≠ '=' :=
  base64UrlEncode_charset _ (sha256_lt _)

/-- A 32-byte verifier encodes to 43 characters, hence is non-empty. -/
theorem generateCodeVerifier_length (bytes : List Nat) (hLen : bytes.length = 32)
    (hlt : ∀ b ∈ bytes, b < 256) : (generateCodeVerifier bytes).length = 43 := by
  rw [generateCodeVerifier, base64UrlEncode_length _ hlt, hLen]

/-- A string of length 43 is not empty. -/
theorem ne_empty_of_length43 (s : String) (h : s.length = 43) : s ≠ "" := by
  intro he
  rw [he] at h
  exact absurd h (by decide)

/-- The error message of a state mismatch. -/
def stateMismatchMsg : String :=
  "State parameter mismatch - possible session expired. Please try launching the app again."

/-- Any callback-page load carrying a truthy `code` and a truthy `state` that
differs from the stored `smart_state` ends in the state-mismatch error before
any token POST. -/
theorem stateMismatch_aux (params : List (String × String)) (store : Store)
    (env : LaunchEnv) (st : String)
    (hErr : truthy (pget params "error") = false)
    (hLaunch : truthy (pget params "launch") = false)
    (hCode : truthy (pget params "code") = true)
    (hState : pget params "state" = some st)
    (hSt : st ≠ "")
    (hNe : getItem store "smart_state" ≠ some st) :
    (handleSmartLaunch params store env).outcome = .failure stateMismatchMsg
      ∧ (handleSmartLaunch params store env).posts = [] := by
  have hNe2 : some st ≠ getItem store "smart_state" := Ne.symm hNe
  have hTr : truthy (some st) = true := by simp [truthy, hSt]
  unfold handleSmartLaunch validateAuthResponse
  simp [hErr, hLaunch, hCode, hState, hTr, hNe2, mkFailure, stateMismatchMsg]

/-! ### Concrete fixtures used by witnesses and counterexamples -/

/-- An environment whose discovery and token calls both succeed. -/
def envOk : LaunchEnv :=
  ⟨List.range 32, "uuid-1", "https://app.example",
   .ok ⟨some "https://auth.example/authorize", some "https://auth.example/token"⟩,
   .ok ⟨"tok1", "pat1"⟩⟩

/-- A store holding a full in-flight handshake. -/
def cbStore : Store :=
  setItem (setItem (setItem emptyStore "smart_iss" "https://ehr.example.org")
    "smart_state" "s0") "smart_code_verifier" "v0"

/-- A store holding a prior authenticated session and nothing else. -/
def sessionStore : Store :=
  setItem (setItem emptyStore "smart_access_token" "tok1") "smart_patient" "pat1"

/-- An environment whose discovery call fails with HTTP 404. -/
def envDown : LaunchEnv := ⟨[], "", "", .notOk 404 "Not Found", .notOk 0 ""⟩

/-- An environment whose discovery call returns parseable JSON that lacks
both endpoint fields. -/
def envMissingFields : LaunchEnv := ⟨[], "", "", .ok ⟨none, none⟩, .notOk 0 ""⟩

/-! ### Claims -/

/-- C2: for every callback whose `state` query parameter (truthy) differs
from the value stored under `smart_state`, the sequencer fails with the
state-mismatch error and performs no token-exchange POST — the exchange step
is never reached. -/
theorem c2_state_mismatch_blocks_exchange (params : List (String × String))
    (store : Store) (env : LaunchEnv) (st : String)
    (hErr : truthy (pget params "error") = false)
    (hLaunch : truthy (pget params "launch") = false)
    (hCode : truthy (pget params "code") = true)
    (hState : pget params "state" = some st)
    (hSt : st ≠ "")
    (hNe : getItem store "smart_state" ≠ some st) :
    (handleSmartLaunch params store env).outcome = .failure stateMismatchMsg
      ∧ (handleSmartLaunch params store env).posts = [] :=
  stateMismatch_aux params store env st hErr hLaunch hCode hState hSt hNe

/-- Witness for C2 at a concrete mismatched callback. -/
theorem c2_state_mismatch_blocks_exchange_witness :
    (handleSmartLaunch [("code", "c1"), ("state", "sX")] cbStore envOk).outcome
        = .failure stateMismatchMsg
      ∧ (handleSmartLaunch [("code", "c1"), ("state", "sX")] cbStore envOk).posts = [] :=
  c2_state_mismatch_blocks_exchange [("code", "c1"), ("state", "sX")] cbStore envOk "sX"
    rfl rfl rfl rfl (by decide) (by decide)

/-- C3: the one-shot `hasInitialized` guard makes a second rapid invocation
of the launch effect a no-op, so a callback navigation whose single run makes
one token POST still makes exactly one token POST across two invocations. -/
theorem c3_duplicate_invocation_single_exchange (params : List (String × String))
    (store : Store) (env : LaunchEnv)
    (h1 : (handleSmartLaunch params store env).posts.length = 1) :
    (doubleInvoke params store env).2 = none
      ∧ postsOf (doubleInvoke params store env).1
          + postsOf (doubleInvoke params store env).2 = 1 := by
  simp [doubleInvoke, effectInvoke, postsOf, h1]

/-- Witness for C3 at a concrete successful callback. -/
theorem c3_duplicate_invocation_single_exchange_witness :
    (doubleInvoke [("code", "c1"), ("state", "s0")] cbStore envOk).2 = none
      ∧ postsOf (doubleInvoke [("code", "c1"), ("state", "s0")] cbStore envOk).1
          + postsOf (doubleInvoke [("code", "c1"), ("state", "s0")] cbStore envOk).2 = 1 :=
  c3_duplicate_invocation_single_exchange [("code", "c1"), ("state", "s0")] cbStore envOk rfl

/-- C4: the code, run on a page load with neither `launch` nor `code` while
the store holds a prior session (`smart_access_token` and `smart_patient`),
navigates to the home view `/` — not to the dashboard `/patient` the claim
requires — because the no-parameter branch returns before the
already-authenticated branch is tested. -/
theorem c4_prior_session_goes_home :
    truthy (getItem sessionStore "smart_access_token") = true
      ∧ truthy (getItem sessionStore "smart_patient") = true
      ∧ (handleSmartLaunch [] sessionStore envOk).outcome = .navigate "/" :=
  ⟨rfl, rfl, rfl⟩

set_option maxRecDepth 400000 in
/-- C9: `generateCodeChallenge` matches the RFC 7636 SHA-256/base64url test
vector, is a deterministic pure function of the verifier, and its output
never contains `+`, `/` or `=`. -/
theorem c9_challenge_deterministic_vector_charset :
    generateCodeChallenge "dBjftJeZ4CVP-mB92K27uhbUJU1p1r_wW1gFWFOEjXk"
        = "E9Melhoa2OwvFrEMTJguCHaoeK1t8URWbuGJSstw-cM"
      ∧ (∀ v₁ v₂ : String, v₁ = v₂ → generateCodeChallenge v₁ = generateCodeChallenge v₂)
      ∧ (∀ v : String, ∀ c ∈ (generateCodeChallenge v).data, c ≠ '+' ∧ c ≠ '/' ∧ c ≠ '=') :=
  ⟨by rfl, fun _ _ h => by rw [h], fun v => generateCodeChallenge_charset v⟩

/-- Witness for C9: applying the determinism conjunct at a concrete verifier. -/
theorem c9_challenge_deterministic_vector_charset_witness :
    generateCodeChallenge "aa" = generateCodeChallenge "aa" :=
  c9_challenge_deterministic_vector_charset.2.1 "aa" "aa" rfl

/-- C10: the home page's `SmartLaunch` click writes nothing to the store (the
`state` it places in the redirect query is never persisted and no
`code_challenge` is generated), so a callback arriving with a truthy `state`
while `smart_state` is absent fails with the state-mismatch error and never
reaches token exchange. -/
theorem c10_home_launch_unpersisted_state :
    (∀ clientId iss uuid origin : String, ∀ store : Store,
        (smartLaunchClick clientId iss uuid origin store).2 = store
          ∧ pget (outcomeQuery (smartLaunchClick clientId iss uuid origin store).1) "state"
              = some uuid
          ∧ pget (outcomeQuery (smartLaunchClick clientId iss uuid origin store).1)
              "code_challenge" = none)
      ∧ (∀ (params : List (String × String)) (store : Store) (env : LaunchEnv) (st : String),
          truthy (pget params "error") = false →
          truthy (pget params "launch") = false →
          truthy (pget params "code") = true →
          pget params "state" = some st → st ≠ "" →
          getItem store "smart_state" = none →
          (handleSmartLaunch params store env).outcome = .failure stateMismatchMsg
            ∧ (handleSmartLaunch params store env).posts = []) := by
  constructor
  · intro clientId iss uuid origin store
    exact ⟨rfl, rfl, rfl⟩
  · intro params store env st hErr hLaunch hCode hState hSt hNone
    exact stateMismatch_aux params store env st hErr hLaunch hCode hState hSt
      (by simp [hNone])

/-- Witness for C10 at a concrete click and a concrete orphan callback. -/
theorem c10_home_launch_unpersisted_state_witness :
    (smartLaunchClick "cid-1" "https://launch.smarthealthit.org/v/r4/fhir" "u1"
        "https://app.example" emptyStore).2 = emptyStore
      ∧ (handleSmartLaunch [("code", "c1"), ("state", "u1")] emptyStore envOk).outcome
          = .failure stateMismatchMsg
      ∧ (handleSmartLaunch [("code", "c1"), ("state", "u1")] emptyStore envOk).posts = [] :=
  ⟨(c10_home_launch_unpersisted_state.1 "cid-1" "https://launch.smarthealthit.org/v/r4/fhir"
      "u1" "https://app.example" emptyStore).1,
   (c10_home_launch_unpersisted_state.2 [("code", "c1"), ("state", "u1")] emptyStore envOk "u1"
      rfl rfl rfl rfl (by decide) rfl).1,
   (c10_home_launch_unpersisted_state.2 [("code", "c1"), ("state", "u1")] emptyStore envOk "u1"
      rfl rfl rfl rfl (by decide) rfl).2⟩

/-- Inverting a successful validation: the received `state` was truthy and
equal to the stored one. -/
theorem validate_ok_facts (params : List (String × String)) (store : Store)
    (h : validateAuthResponse params store = .ok ()) :
    truthy (pget params "state") = true
      ∧ pget params "state" = getItem store "smart_state" := by
  unfold validateAuthResponse at h
  by_cases hs : truthy (pget params "state") = true
  · refine ⟨hs, ?_⟩
    simp only [hs] at h
    by_cases hcd : truthy (pget params "code") = true
    · simp only [hcd] at h
      simp at h
      exact h
    · simp only [eq_false_of_ne_true hcd] at h
      simp at h
  · simp only [eq_false_of_ne_true hs] at h
    by_cases hcd : truthy (pget params "code") = true
    · simp only [hcd] at h
      simp at h
    · simp only [eq_false_of_ne_true hcd] at h
      simp at h

/-- C1 counterexample: a concrete callback failing validation (state
mismatch) on which the in-flight keys `smart_state`, `smart_iss` and
`smart_code_verifier` all survive in the store — they are not removed as the
claim requires. -/
theorem c1_counterexample :
    (handleSmartLaunch [("code", "c1"), ("state", "sY")] cbStore envOk).outcome
        = .failure stateMismatchMsg
      ∧ getItem (handleSmartLaunch [("code", "c1"), ("state", "sY")] cbStore envOk).store
          "smart_state" = some "s0"
      ∧ getItem (handleSmartLaunch [("code", "c1"), ("state", "sY")] cbStore envOk).store
          "smart_iss" = some "https://ehr.example.org"
      ∧ getItem (handleSmartLaunch [("code", "c1"), ("state", "sY")] cbStore envOk).store
          "smart_code_verifier" = some "v0" :=
  ⟨rfl, rfl, rfl, rfl⟩

/-- C1 (amended): on every callback-page load on which validation fails
(missing/falsy `state`, state mismatch, or missing stored code verifier) the
in-flight handshake keys are NOT removed: the run ends in an error with no
token POST and the store is exactly the input store — the keys are cleared
only on the successful-exchange path. -/
theorem c1_amended_failure_leaves_store (params : List (String × String))
    (store : Store) (env : LaunchEnv)
    (hErr : truthy (pget params "error") = false)
    (hLaunch : truthy (pget params "launch") = false)
    (hCode : truthy (pget params "code") = true)
    (hFail : truthy (pget params "state") = false
      ∨ pget params "state" ≠ getItem store "smart_state"
      ∨ truthy (getItem store "smart_code_verifier") = false) :
    (handleSmartLaunch params store env).store = store
      ∧ (∃ m, (handleSmartLaunch params store env).outcome = .failure m)
      ∧ (handleSmartLaunch params store env).posts = [] := by
  unfold handleSmartLaunch
  simp only [hErr, hLaunch, hCode]
  rcases hv : validateAuthResponse params store with m | u
  · simp [mkFailure]
  · obtain ⟨hsTrue, hsEq⟩ := validate_ok_facts params store (by rw [hv])
    rcases hFail with h1 | h2 | h3
    · rw [hsTrue] at h1; exact absurd h1 (by simp)
    · exact absurd hsEq h2
    · cases u
      rcases hIss : truthy (getItem store "smart_iss") with _ | _
      · simp [hIss, mkFailure]
      · simp only [hIss]
        rcases hf : (fetchSmartConfiguration ((getItem store "smart_iss").getD "") env).1
          with m | config
        · simp [mkFailure]
        · simp only [exchangeCodeForToken, h3]
          simp [mkFailure]

/-- Witness for the amended C1 at a concrete mismatched callback. -/
theorem c1_amended_failure_leaves_store_witness :
    (handleSmartLaunch [("code", "c1"), ("state", "sZ")] cbStore envOk).store = cbStore
      ∧ (∃ m, (handleSmartLaunch [("code", "c1"), ("state", "sZ")] cbStore envOk).outcome
          = .failure m)
      ∧ (handleSmartLaunch [("code", "c1"), ("state", "sZ")] cbStore envOk).posts = [] :=
  c1_amended_failure_leaves_store [("code", "c1"), ("state", "sZ")] cbStore envOk
    rfl rfl rfl (Or.inr (Or.inl (by decide)))

/-- C5 counterexample: a discovery response that parses but lacks both
endpoint fields is returned as an (incomplete) configuration — resolution
does not fail with a distinct "malformed" error as the claim requires. -/
theorem c5_counterexample :
    (fetchSmartConfiguration "https://ehr.example.org" envMissingFields).1
      = .ok ⟨none, none⟩ := rfl

/-- C5 (amended): for non-shortcut issuers, resolution fails (with the
status-bearing unavailable error) exactly when the discovery fetch returns a
non-success status; a response that parses is returned as-is, even when it
lacks `authorization_endpoint`/`token_endpoint` — there is no distinct
malformed-configuration error. -/
theorem c5_amended_unavailable_only (iss : String) (env : LaunchEnv)
    (hNotMed : strContains iss "medplum.com" = false) :
    (∀ status statusText, env.discovery = .notOk status statusText →
        (fetchSmartConfiguration iss env).1
          = .error ("Failed to fetch SMART configuration from "
              ++ (iss ++ "/.well-known/smart-configuration") ++ ": "
              ++ toString status ++ " " ++ statusText))
      ∧ (∀ cfg, env.discovery = .ok cfg → (fetchSmartConfiguration iss env).1 = .ok cfg) := by
  refine ⟨fun status statusText h => ?_, fun cfg h => ?_⟩ <;>
    simp [fetchSmartConfiguration, hNotMed, h]

/-- Witness for the amended C5 at a concrete 404 discovery. -/
theorem c5_amended_unavailable_only_witness :
    (fetchSmartConfiguration "https://ehr.example.org" envDown).1
      = .error ("Failed to fetch SMART configuration from https://ehr.example.org"
          ++ "/.well-known/smart-configuration: " ++ toString 404 ++ " Not Found") :=
  (c5_amended_unavailable_only "https://ehr.example.org" envDown (by decide)).1
    404 "Not Found" rfl

/-- C6 counterexample: an issuer URL whose hostname is `attacker.example`
(not a recognized Medplum host) but whose path contains `medplum.com`
bypasses discovery — no fetch is issued and the hardcoded endpoints are
returned, refuting hostname/domain-based recognition. -/
theorem c6_counterexample :
    urlHostname "https://attacker.example/medplum.com" = "attacker.example"
      ∧ (fetchSmartConfiguration "https://attacker.example/medplum.com" envDown).2 = []
      ∧ (fetchSmartConfiguration "https://attacker.example/medplum.com" envDown).1
          = .ok ⟨some "https://api.medplum.com/oauth2/authorize",
                 some "https://api.medplum.com/oauth2/token"⟩ :=
  ⟨rfl, rfl, rfl⟩

/-- C6 (amended): recognition is by the substring `medplum.com` occurring
anywhere in the issuer URL: matching issuers bypass discovery entirely and
get the hardcoded endpoint pair (in particular `https://api.medplum.com/...`
issuers never trigger a fetch); all non-matching issuers GET
`<iss>/.well-known/smart-configuration`. -/
theorem c6_amended_substring_recognition (iss : String) (env : LaunchEnv) :
    (strContains iss "medplum.com" = true →
        fetchSmartConfiguration iss env
          = (.ok ⟨some "https://api.medplum.com/oauth2/authorize",
                  some "https://api.medplum.com/oauth2/token"⟩, []))
      ∧ (strContains iss "medplum.com" = false →
        (fetchSmartConfiguration iss env).2 = [iss ++ "/.well-known/smart-configuration"]) := by
  constructor
  · intro h
    simp [fetchSmartConfiguration, h]
  · intro h
    rcases h2 : env.discovery with ⟨status, statusText⟩ | cfg <;>
      simp [fetchSmartConfiguration, h, h2]

/-- Witness for the amended C6: the Medplum shortcut and a discovery fetch
on a non-matching issuer. -/
theorem c6_amended_substring_recognition_witness :
    fetchSmartConfiguration "https://api.medplum.com/fhir/R4" envDown
        = (.ok ⟨some "https://api.medplum.com/oauth2/authorize",
                some "https://api.medplum.com/oauth2/token"⟩, [])
      ∧ (fetchSmartConfiguration "https://ehr.example.org" envDown).2
          = ["https://ehr.example.org/.well-known/smart-configuration"] :=
  ⟨(c6_amended_substring_recognition "https://api.medplum.com/fhir/R4" envDown).1 (by decide),
   (c6_amended_substring_recognition "https://ehr.example.org" envDown).2 (by decide)⟩

/-- The initiation request of the C7 counterexample: it carries an explicit
`client_id`. -/
def initParamsC7 : List (String × String) :=
  [("launch", "abc123"), ("iss", "https://ehr.example.org"), ("client_id", "custom-app")]

/-- The initiation run of the C7 counterexample. -/
def run1C7 : RunResult := handleSmartLaunch initParamsC7 emptyStore envOk

/-- The callback run of the C7 counterexample, on the store the initiation
run left behind. -/
def run2C7 : RunResult :=
  handleSmartLaunch [("code", "c1"), ("state", "uuid-1")] run1C7.store envOk

set_option maxRecDepth 400000 in
/-- C7 counterexample: an initiation carrying `client_id=custom-app` places
`custom-app` in the authorization redirect, but the callback's token POST
carries the Medplum default client id — the two halves of the handshake use
different client ids. -/
theorem c7_counterexample :
    pget (outcomeQuery run1C7.outcome) "client_id" = some "custom-app"
      ∧ run2C7.posts.map (fun p => pget p.body "client_id") = [some MEDPLUM_CLIENT_ID]
      ∧ "custom-app" ≠ MEDPLUM_CLIENT_ID :=
  ⟨rfl, rfl, by decide⟩

/-- C7 (amended): the client id is identical at initiation and at
callback/token-exchange time whenever neither request carries an explicit
truthy `client_id` parameter — both sides then recompute it from the same
issuer (read back from the store at callback time). An explicit `client_id`
passed at initiation is not reproduced at callback. -/
theorem c7_amended_clientid_stable (initParams cbParams : List (String × String))
    (iss : String)
    (hInit : truthy (pget initParams "client_id") = false)
    (hCb : truthy (pget cbParams "client_id") = false) :
    getClientId initParams iss = getClientId cbParams iss := by
  simp [getClientId, hInit, hCb]

/-- Witness for the amended C7 at concrete parameter lists. -/
theorem c7_amended_clientid_stable_witness :
    getClientId [("launch", "l1"), ("iss", "https://ehr.example.org")] "https://ehr.example.org"
      = getClientId [("code", "c1"), ("state", "s1")] "https://ehr.example.org" :=
  c7_amended_clientid_stable [("launch", "l1"), ("iss", "https://ehr.example.org")]
    [("code", "c1"), ("state", "s1")] "https://ehr.example.org" rfl rfl

/-- The initiation request of the C8 scenario. -/
def launchParams : List (String × String) :=
  [("launch", "abc123"), ("iss", "https://ehr.example.org")]

/-- C8: initiation with `launch=abc123&iss=https://ehr.example.org` (32
random verifier bytes, a non-empty uuid, and a discovery response carrying
an authorization endpoint) redirects to that endpoint with a query holding
`response_type=code`, `aud=https://ehr.example.org`, `launch=abc123`, a
43-character unpadded-base64url `code_challenge` and
`code_challenge_method=S256`, and leaves the store holding
`smart_iss=https://ehr.example.org` plus non-empty `smart_state` and
`smart_code_verifier`. -/
theorem c8_initiation_artifacts (store : Store) (env : LaunchEnv)
    (cfg : SmartConfiguration) (ep : String)
    (hLen : env.verifierBytes.length = 32)
    (hBytes : ∀ b ∈ env.verifierBytes, b < 256)
    (hUuid : env.uuid ≠ "")
    (hDisc : env.discovery = .ok cfg)
    (hEp : cfg.authorization_endpoint = some ep) :
    (∃ q, (handleSmartLaunch launchParams store env).outcome = .redirect ep q
        ∧ pget q "response_type" = some "code"
        ∧ pget q "aud" = some "https://ehr.example.org"
        ∧ pget q "launch" = some "abc123"
        ∧ pget q "code_challenge_method" = some "S256"
        ∧ ∃ chal, pget q "code_challenge" = some chal ∧ chal.length = 43
            ∧ ∀ c ∈ chal.data, c ≠ '+' ∧ c ≠ '/' ∧ c ≠ '=')
      ∧ getItem (handleSmartLaunch launchParams store env).store "smart_iss"
          = some "https://ehr.example.org"
      ∧ (∃ stv, getItem (handleSmartLaunch launchParams store env).store "smart_state"
          = some stv ∧ stv ≠ "")
      ∧ (∃ vf, getItem (handleSmartLaunch launchParams store env).store "smart_code_verifier"
          = some vf ∧ vf ≠ "") := by
  have hErr : pget launchParams "error" = none := rfl
  have hLaunch : pget launchParams "launch" = some "abc123" := rfl
  have hIss : pget launchParams "iss" = some "https://ehr.example.org" := rfl
  have hMed : strContains "https://ehr.example.org" "medplum.com" = false := by decide
  have hRun : handleSmartLaunch launchParams store env
      = ⟨.redirect ep [("response_type", "code"),
            ("client_id", getClientId launchParams "https://ehr.example.org"),
            ("scope", FHIR_SCOPE), ("redirect_uri", env.origin ++ "/launch"),
            ("state", env.uuid), ("aud", "https://ehr.example.org"),
            ("launch", "abc123"),
            ("code_challenge", generateCodeChallenge (generateCodeVerifier env.verifierBytes)),
            ("code_challenge_method", "S256")],
          setItem (setItem (setItem store "smart_iss" "https://ehr.example.org")
            "smart_state" env.uuid) "smart_code_verifier" (generateCodeVerifier env.verifierBytes),
          ["https://ehr.example.org/.well-known/smart-configuration"], []⟩ := by
    unfold handleSmartLaunch initiateEhrLaunch fetchSmartConfiguration
    simp [hErr, hLaunch, hIss, hMed, hDisc, hEp, truthy]
  have hVfLen : (generateCodeVerifier env.verifierBytes).length = 43 :=
    generateCodeVerifier_length env.verifierBytes hLen hBytes
  rw [hRun]
  refine ⟨⟨_, rfl, rfl, rfl, rfl, rfl,
      generateCodeChallenge (generateCodeVerifier env.verifierBytes), rfl,
      generateCodeChallenge_length _, generateCodeChallenge_charset _⟩,
    ?_, ⟨env.uuid, ?_, hUuid⟩,
    ⟨generateCodeVerifier env.verifierBytes, ?_, ne_empty_of_length43 _ hVfLen⟩⟩ <;>
    simp [getItem, setItem]

/-- Witness for C8 at a concrete environment. -/
theorem c8_initiation_artifacts_witness :
    (∃ q, (handleSmartLaunch launchParams emptyStore envOk).outcome
          = .redirect "https://auth.example/authorize" q
        ∧ pget q "response_type" = some "code"
        ∧ pget q "aud" = some "https://ehr.example.org"
        ∧ pget q "launch" = some "abc123"
        ∧ pget q "code_challenge_method" = some "S256"
        ∧ ∃ chal, pget q "code_challenge" = some chal ∧ chal.length = 43
            ∧ ∀ c ∈ chal.data, c ≠ '+' ∧ c ≠ '/' ∧ c ≠ '=')
      ∧ getItem (handleSmartLaunch launchParams emptyStore envOk).store "smart_iss"
          = some "https://ehr.example.org"
      ∧ (∃ stv, getItem (handleSmartLaunch launchParams emptyStore envOk).store "smart_state"
          = some stv ∧ stv ≠ "")
      ∧ (∃ vf, getItem (handleSmartLaunch launchParams emptyStore envOk).store
          "smart_code_verifier" = some vf ∧ vf ≠ "") :=
  c8_initiation_artifacts emptyStore envOk
    ⟨some "https://auth.example/authorize", some "https://auth.example/token"⟩
    "https://auth.example/authorize" (by decide) (by decide) (by decide) rfl rfl

end SmartDemo
